import Mathlib

/-!
# Verification of the Z407 BLE session manager (src/src/main.rs)

Shallow embedding of the BLE worker of the Z407 puck application:
the shared state (`Z407State`), the scan/match loop, the handshake,
the command loop, the response decoder of `Z407PuckApp::update`, and
the command-issuing methods (`volume_up`, …, `factory_reset`).

Conventions of the embedding:
* byte frames are `List Nat` with each entry a byte value;
* the `f32` fields `volume`/`bass` are carried as `Int` — the modelled
  code only stores them and never computes with them, so the carrier
  type is irrelevant to every property proved here;
* the `mpsc` channel of command frames is an explicit queue
  (`List (List Nat)`); `cmd_tx`/`resp_rx` presence (`Option::is_some`)
  is carried as `Bool`;
* wall-clock time is milliseconds (`Nat`) from scan start; each
  advertisement event of the scan stream carries the elapsed time at
  which the worker processes it;
* fallible BLE operations (adapter acquisition, connect, writes) are
  driven by an environment record `BleEnv` of outcomes.
-/

namespace Z407

/-- One byte frame, as in `Vec<u8>` command frames of the source. -/
abbrev Frame := List Nat

/-- Embedding of `struct Z407State` (main.rs lines 11–20).
`cmd_tx`/`resp_rx` record only presence of the channel handles
(`Option<Sender>`/`Option<Receiver>`); the queue contents are modelled
separately. `scan_requested` is the connect-request flag the spec calls
`connect_requested`. -/
structure Z407State where
  connected : Bool
  volume : Int
  bass : Int
  current_input : String
  cmd_tx : Bool
  resp_rx : Bool
  scan_requested : Bool
deriving DecidableEq, Repr

/-- The state built by `Z407PuckApp::new` (lines 27–41): `Default`
values with `scan_requested: true`, then both channel ends installed. -/
def new_state : Z407State :=
  { connected := false, volume := 0, bass := 0, current_input := "",
    cmd_tx := true, resp_rx := true, scan_requested := true }

/-- `target_name` (line 84). -/
def target_name : String := "Logitech Z407"

/-- The service UUID constant (line 123), used only after connection to
resolve the GATT service — not as a scan filter. -/
def service_uuid : String := "0000fdc2-0000-1000-8000-00805f9b34fb"

/-- Command characteristic UUID (line 124). -/
def cmd_uuid : String := "c2e758b9-0e78-41e0-b0cb-98a593193fc5"

/-- Response characteristic UUID (line 125). -/
def resp_uuid : String := "b84ac9c6-29c5-46d4-bba1-9d534784330f"

/-- The scan timeout `Duration::from_secs(10)` (line 89), in ms. -/
def scan_timeout_ms : Nat := 10000

/-- The argument of `adapter.scan(&[])` (line 86): the scan is opened
with an EMPTY service-UUID filter. -/
def scan_filter : List String := []

/-- One advertisement event of the scan stream. `time` is the elapsed
wall-clock ms since scan start when the worker processes it; `name` is
the result of `adv_device.device.name()` (line 102); `services` is the
advertised service-UUID set, which the source code never inspects. -/
structure AdvEvent where
  time : Nat
  name : Option String
  services : List String
deriving DecidableEq, Repr

/-- The scan loop (lines 92–112): for each advertisement, first check
`scan_start.elapsed() > scan_timeout` and break on timeout, otherwise
match the readable device name against `target_name` and stop at the
first equal name. Returns the matched event (if any) and the elapsed
time at which the loop exits; if the stream closes (yields `None`)
without a match or timeout, the exit time is `closeTime`, the time at
which the stream closed. The timeout is inspected only when the stream
yields: between events the loop is suspended in `next().await`.
The source's two-level test — `if let Ok(Some(name)) = …name().await`
then `name == target_name` — is one condition here: the advertisement
matches exactly when its readable name is `some target_name`. -/
def scan_loop (evs : List AdvEvent) (closeTime : Nat) : Option AdvEvent × Nat :=
  match evs with
  | [] => (none, closeTime)
  | e :: rest =>
    if scan_timeout_ms < e.time then (none, e.time)
    else if e.name = some target_name then (some e, e.time)
    else scan_loop rest closeTime

/-- An action performed on the command characteristic: a successful
2-byte write, or a `sleep` of the given milliseconds. -/
inductive BleAction where
  | write (frame : Frame)
  | sleep (ms : Nat)
deriving DecidableEq, Repr

/-- The frames of the successful writes in a trace. -/
def writesOf (tr : List BleAction) : List Frame :=
  tr.filterMap fun a =>
    match a with
    | BleAction.write f => some f
    | BleAction.sleep _ => none

/-- The command loop (lines 183–192): drain the command channel in FIFO
order; each drained frame is written to the command characteristic and,
on success, followed by `sleep(50 ms)`; the first failing write breaks
the loop. `writeOk i` tells whether the i-th write attempt of the
session's command loop succeeds. Returns the trace of successful
actions and whether the loop exited via `break` (a write failure).
The queue lists the frames that arrive during the session; idle
iterations (empty `try_recv`, line 191 sleep only) are not modelled, as
they write nothing and never change state. -/
def command_loop (writeOk : Nat → Bool) : Nat → List Frame → List BleAction × Bool
  | _, [] => ([], false)
  | i, c :: rest =>
    if writeOk i then
      let r := command_loop writeOk (i + 1) rest
      (BleAction.write c :: BleAction.sleep 50 :: r.1, r.2)
    else ([], true)

/-- Lower-case hex digit, as produced by `hex::encode`. -/
def hexDigit (n : Nat) : Char :=
  if n < 10 then Char.ofNat (48 + n) else Char.ofNat (87 + n)

/-- `hex::encode` (line 156) on a byte list. -/
def hex_encode (bs : List Nat) : String :=
  String.mk ((bs.map fun b => [hexDigit (b / 16), hexDigit (b % 16)]).flatten)

/-- The response-decoding step of `Z407PuckApp::update` (lines 266–271):
match the hex-encoded response frame and update `current_input`, or
leave the state unchanged for any unknown code. The strings
`"Bluetooth"`, `"AUX"`, `"USB"` embed the spec's input-source
enumeration values Bluetooth, Aux, Usb. -/
def decode_response (st : Z407State) (resp_hex : String) : Z407State :=
  if resp_hex = "c101" then { st with current_input := "Bluetooth" }
  else if resp_hex = "c102" then { st with current_input := "AUX" }
  else if resp_hex = "c103" then { st with current_input := "USB" }
  else st

/-- The response-polling loop of `update` (lines 262–273): drain all
pending hex strings and fold the decode step over them. -/
def poll_responses (st : Z407State) (resps : List String) : Z407State :=
  resps.foldl decode_response st

/-- `Z407PuckApp::send_cmd` (lines 202–207): lock the state; if the
sender handle is present, enqueue the frame on the command channel.
The state itself is returned unchanged — `send_cmd` never writes any
field. -/
def send_cmd (st : Z407State) (q : List Frame) (cmd : Frame) : Z407State × List Frame :=
  (st, if st.cmd_tx then q ++ [cmd] else q)

/-- `volume_up` (lines 209–211). -/
def volume_up (st : Z407State) (q : List Frame) : Z407State × List Frame :=
  send_cmd st q [0x80, 0x02]

/-- `volume_down` (lines 213–215). -/
def volume_down (st : Z407State) (q : List Frame) : Z407State × List Frame :=
  send_cmd st q [0x80, 0x03]

/-- `bass_up` (lines 217–219). -/
def bass_up (st : Z407State) (q : List Frame) : Z407State × List Frame :=
  send_cmd st q [0x80, 0x00]

/-- `bass_down` (lines 221–223). -/
def bass_down (st : Z407State) (q : List Frame) : Z407State × List Frame :=
  send_cmd st q [0x80, 0x01]

/-- `play_pause` (lines 225–227). -/
def play_pause (st : Z407State) (q : List Frame) : Z407State × List Frame :=
  send_cmd st q [0x80, 0x04]

/-- `next_track` (lines 229–231). -/
def next_track (st : Z407State) (q : List Frame) : Z407State × List Frame :=
  send_cmd st q [0x80, 0x05]

/-- `prev_track` (lines 233–235). -/
def prev_track (st : Z407State) (q : List Frame) : Z407State × List Frame :=
  send_cmd st q [0x80, 0x06]

/-- `switch_bluetooth` (lines 237–239). -/
def switch_bluetooth (st : Z407State) (q : List Frame) : Z407State × List Frame :=
  send_cmd st q [0x81, 0x01]

/-- `switch_aux` (lines 241–243). -/
def switch_aux (st : Z407State) (q : List Frame) : Z407State × List Frame :=
  send_cmd st q [0x81, 0x02]

/-- `switch_usb` (lines 245–247). -/
def switch_usb (st : Z407State) (q : List Frame) : Z407State × List Frame :=
  send_cmd st q [0x81, 0x03]

/-- `pairing` (lines 249–251). -/
def pairing (st : Z407State) (q : List Frame) : Z407State × List Frame :=
  send_cmd st q [0x82, 0x00]

/-- `factory_reset` (lines 253–255). -/
def factory_reset (st : Z407State) (q : List Frame) : Z407State × List Frame :=
  send_cmd st q [0x83, 0x00]

/-- Environment of one `ble_loop` run: the outcomes of the fallible BLE
operations and the data delivered by the stack. `adapterPresent` is
`Adapter::default()` yielding `Some`; `adapterReady` is the success of
`adapter.address()` and `adapter.wait_available()`; `advStream` /
`closeTime` drive the scan stream; `deviceServices` are the UUIDs found
by `device.services()`; `serviceChars` the characteristic UUIDs of the
target service; `notifySetupOk` is `resp_char.notify()` succeeding and
`respFrames` the notification payloads; `hsWrite1Ok`/`hsWrite2Ok` are
the two handshake writes; `cmdWriteOk` and `cmdQueue` drive the command
loop. -/
structure BleEnv where
  adapterPresent : Bool
  adapterReady : Bool
  advStream : List AdvEvent
  closeTime : Nat
  connectOk : Bool
  deviceServices : List String
  serviceChars : List String
  notifySetupOk : Bool
  respFrames : List (List Nat)
  hsWrite1Ok : Bool
  hsWrite2Ok : Bool
  cmdWriteOk : Nat → Bool
  cmdQueue : List Frame

/-- How a `ble_loop` run ends (or settles). `notRequested`: early return
at the `scan_requested` check; `noAdapter` / `adapterError`: adapter
acquisition failures; `deviceNotFound`: the scan found no match (line
114–117 early return); `connectFailed`, `serviceNotFound`,
`cmdCharNotFound`, `respCharNotFound`, `handshakeFailed`: the respective
`?`-propagated errors; `disconnected`: the command loop broke on a
write failure and `connected` was reset; `activeForever`: no command
write ever fails, so the `loop` of lines 183–192 never exits and the
state rests at its post-handshake value. -/
inductive BleOutcome where
  | notRequested
  | noAdapter
  | adapterError
  | deviceNotFound
  | connectFailed
  | serviceNotFound
  | cmdCharNotFound
  | respCharNotFound
  | handshakeFailed
  | disconnected
  | activeForever
deriving DecidableEq, Repr

/-- Result of a `ble_loop` run: the last value ever held by the shared
state (`finalState`), the outcome, the trace of successful actions on
the command characteristic, the hex strings forwarded on the response
channel by the notification task (lines 151–163), and — when the
handshake completed — the state published right after it (lines
174–178). -/
structure BleResult where
  finalState : Z407State
  outcome : BleOutcome
  trace : List BleAction
  respSent : List String
  afterHandshake : Option Z407State
deriving DecidableEq, Repr

/-- Embedding of `Z407PuckApp::ble_loop` (lines 57–200), sequencing:
the `scan_requested` check (62–67), adapter acquisition (69–82), the
scan loop (84–117), connect (119–121), service and characteristic
resolution (123–148), the notification task (151–163), the handshake
(165–178), and the command loop with its exit path (180–198). Every
early-exit path returns the state unchanged; only the post-handshake
block (174–178) and the post-loop block (195–198) write to the state. -/
def ble_loop (env : BleEnv) (st : Z407State) : BleResult :=
  if !st.scan_requested then
    ⟨st, BleOutcome.notRequested, [], [], none⟩
  else if !env.adapterPresent then
    ⟨st, BleOutcome.noAdapter, [], [], none⟩
  else if !env.adapterReady then
    ⟨st, BleOutcome.adapterError, [], [], none⟩
  else
    match (scan_loop env.advStream env.closeTime).1 with
    | none => ⟨st, BleOutcome.deviceNotFound, [], [], none⟩
    | some _ =>
      if !env.connectOk then
        ⟨st, BleOutcome.connectFailed, [], [], none⟩
      else if !(env.deviceServices.contains service_uuid) then
        ⟨st, BleOutcome.serviceNotFound, [], [], none⟩
      else if !(env.serviceChars.contains cmd_uuid) then
        ⟨st, BleOutcome.cmdCharNotFound, [], [], none⟩
      else if !(env.serviceChars.contains resp_uuid) then
        ⟨st, BleOutcome.respCharNotFound, [], [], none⟩
      else
        let respSent := if env.notifySetupOk then env.respFrames.map hex_encode else []
        if !env.hsWrite1Ok then
          ⟨st, BleOutcome.handshakeFailed, [], respSent, none⟩
        else if !env.hsWrite2Ok then
          ⟨st, BleOutcome.handshakeFailed,
            [BleAction.write [0x84, 0x05], BleAction.sleep 200], respSent, none⟩
        else
          let hsTrace : List BleAction :=
            [BleAction.write [0x84, 0x05], BleAction.sleep 200,
             BleAction.write [0x84, 0x00], BleAction.sleep 200]
          let st1 := { st with connected := true, current_input := "Bluetooth" }
          let r := command_loop env.cmdWriteOk 0 env.cmdQueue
          if r.2 then
            ⟨{ st1 with connected := false }, BleOutcome.disconnected,
              hsTrace ++ r.1, respSent, some st1⟩
          else
            ⟨st1, BleOutcome.activeForever, hsTrace ++ r.1, respSent, some st1⟩

/-- An environment on which every phase succeeds: the first stream
event is a matching advertisement at 2 ms, the device exposes the
target service with both characteristics, the handshake writes succeed,
and no command write ever fails. -/
def env_found : BleEnv :=
  { adapterPresent := true, adapterReady := true,
    advStream := [⟨2, some "Logitech Z407", []⟩], closeTime := 0,
    connectOk := true, deviceServices := [service_uuid],
    serviceChars := [cmd_uuid, resp_uuid], notifySetupOk := true,
    respFrames := [], hsWrite1Ok := true, hsWrite2Ok := true,
    cmdWriteOk := (fun _ => true), cmdQueue := [] }

/-! ## Helper lemmas -/

/-- `writesOf` drops a leading write into the frame list. -/
theorem writesOf_write (f : Frame) (tr : List BleAction) :
    writesOf (BleAction.write f :: tr) = f :: writesOf tr := by
  simp [writesOf]

/-- `writesOf` skips a leading sleep. -/
theorem writesOf_sleep (ms : Nat) (tr : List BleAction) :
    writesOf (BleAction.sleep ms :: tr) = writesOf tr := by
  simp [writesOf]

/-- When every write succeeds, the command loop writes exactly the
queued frames, in order. -/
theorem command_loop_writes_all (writeOk : Nat → Bool) (h : ∀ i, writeOk i = true) :
    ∀ (n : Nat) (q : List Frame), writesOf (command_loop writeOk n q).1 = q := by
  intro n q
  induction q generalizing n with
  | nil => simp [command_loop, writesOf]
  | cons c rest ih =>
    simp only [command_loop, h n, if_true]
    rw [writesOf_write, writesOf_sleep, ih]

/-- If the command loop broke on a write failure, at least the failing
frame went unwritten: strictly fewer writes than queued frames. -/
theorem command_loop_broke_writes_lt (writeOk : Nat → Bool) :
    ∀ (n : Nat) (q : List Frame), (command_loop writeOk n q).2 = true →
      (writesOf (command_loop writeOk n q).1).length < q.length := by
  intro n q
  induction q generalizing n with
  | nil => intro h; simp [command_loop] at h
  | cons c rest ih =>
    intro h
    by_cases hw : writeOk n = true
    · simp only [command_loop, hw, if_true] at h ⊢
      rw [writesOf_write, writesOf_sleep]
      exact Nat.succ_lt_succ (ih (n + 1) h)
    · simp only [command_loop, hw, if_false, Bool.false_eq_true] at h ⊢
      simp [writesOf]

/-- Any advertisement the scan loop matches carries the target name. -/
theorem scan_loop_match_name :
    ∀ (evs : List AdvEvent) (ct : Nat) (e : AdvEvent),
      (scan_loop evs ct).1 = some e → e.name = some target_name := by
  intro evs
  induction evs with
  | nil => intro ct e h; simp [scan_loop] at h
  | cons a rest ih =>
    intro ct e h
    rw [scan_loop] at h
    by_cases ht : scan_timeout_ms < a.time
    · simp [ht] at h
    · by_cases hn : a.name = some target_name
      · simp [ht, hn] at h
        exact h ▸ hn
      · simp [ht, hn] at h
        exact ih ct e h

/-- A matched advertisement arrived within the deadline, and the loop
exits at its arrival time. -/
theorem scan_loop_match_time :
    ∀ (evs : List AdvEvent) (ct : Nat) (e : AdvEvent),
      (scan_loop evs ct).1 = some e →
        e.time ≤ scan_timeout_ms ∧ (scan_loop evs ct).2 = e.time := by
  intro evs
  induction evs with
  | nil => intro ct e h; simp [scan_loop] at h
  | cons a rest ih =>
    intro ct e h
    rw [scan_loop] at h
    rw [scan_loop]
    by_cases ht : scan_timeout_ms < a.time
    · simp [ht] at h
    · by_cases hn : a.name = some target_name
      · simp [ht, hn] at h ⊢
        exact ⟨h ▸ Nat.le_of_not_lt ht, h ▸ rfl⟩
      · simp [ht, hn] at h ⊢
        exact ih ct e h

/-- The scan loop exits either at stream close or at the arrival time
of one of the stream's advertisements — never at the deadline itself. -/
theorem scan_loop_exit_time :
    ∀ (evs : List AdvEvent) (ct : Nat),
      (scan_loop evs ct).2 = ct ∨ ∃ e, e ∈ evs ∧ (scan_loop evs ct).2 = e.time := by
  intro evs
  induction evs with
  | nil => intro ct; exact Or.inl rfl
  | cons a rest ih =>
    intro ct
    rw [scan_loop]
    by_cases ht : scan_timeout_ms < a.time
    · exact Or.inr ⟨a, List.mem_cons_self a rest, by simp [ht]⟩
    · by_cases hn : a.name = some target_name
      · exact Or.inr ⟨a, List.mem_cons_self a rest, by simp [ht, hn]⟩
      · rcases ih ct with h | ⟨e, he, hx⟩
        · exact Or.inl (by simp [ht, hn, h])
        · exact Or.inr ⟨e, List.mem_cons_of_mem a he, by simp [ht, hn, hx]⟩

/-- The scan result is independent of the advertised service sets: only
arrival times and names matter. -/
theorem scan_loop_ignores_services :
    ∀ (evs : List AdvEvent) (ct : Nat) (g : AdvEvent → List String),
      ((scan_loop (evs.map fun e => { e with services := g e }) ct).1.map AdvEvent.name
         = (scan_loop evs ct).1.map AdvEvent.name)
      ∧ (scan_loop (evs.map fun e => { e with services := g e }) ct).2
         = (scan_loop evs ct).2 := by
  intro evs
  induction evs with
  | nil => intro ct g; simp [scan_loop]
  | cons a rest ih =>
    intro ct g
    rw [List.map_cons, scan_loop, scan_loop]
    by_cases ht : scan_timeout_ms < a.time
    · simp [ht]
    · by_cases hn : a.name = some target_name
      · simp [ht, hn]
      · simp only [ht, hn, if_false]
        exact ih ct g

/-- Reduction of `ble_loop` along the path on which every phase up to
and including the handshake succeeds: the run enters the command loop,
and the result depends only on whether that loop breaks. -/
theorem ble_loop_success_path (env : BleEnv) (st : Z407State) (d : AdvEvent)
    (h1 : st.scan_requested = true) (h2 : env.adapterPresent = true)
    (h3 : env.adapterReady = true)
    (h4 : (scan_loop env.advStream env.closeTime).1 = some d)
    (h5 : env.connectOk = true)
    (h6 : service_uuid ∈ env.deviceServices)
    (h7 : cmd_uuid ∈ env.serviceChars)
    (h8 : resp_uuid ∈ env.serviceChars)
    (h9 : env.hsWrite1Ok = true) (h10 : env.hsWrite2Ok = true) :
    ble_loop env st =
      (if (command_loop env.cmdWriteOk 0 env.cmdQueue).2 then
        ⟨{ st with connected := false, current_input := "Bluetooth" },
          BleOutcome.disconnected,
          [BleAction.write [0x84, 0x05], BleAction.sleep 200,
           BleAction.write [0x84, 0x00], BleAction.sleep 200]
            ++ (command_loop env.cmdWriteOk 0 env.cmdQueue).1,
          (if env.notifySetupOk then env.respFrames.map hex_encode else []),
          some { st with connected := true, current_input := "Bluetooth" }⟩
      else
        ⟨{ st with connected := true, current_input := "Bluetooth" },
          BleOutcome.activeForever,
          [BleAction.write [0x84, 0x05], BleAction.sleep 200,
           BleAction.write [0x84, 0x00], BleAction.sleep 200]
            ++ (command_loop env.cmdWriteOk 0 env.cmdQueue).1,
          (if env.notifySetupOk then env.respFrames.map hex_encode else []),
          some { st with connected := true, current_input := "Bluetooth" }⟩) := by
  by_cases h11 : (command_loop env.cmdWriteOk 0 env.cmdQueue).2 <;>
    simp [ble_loop, h1, h2, h3, h4, h5, h6, h7, h8, h9, h10, h11]

/-- The shared state's last value is the input state, the input state
with `connected`/`current_input` set by the post-handshake block, or
that value with `connected` cleared by the post-loop block. -/
theorem ble_loop_finalState_cases (env : BleEnv) (st : Z407State) :
    (ble_loop env st).finalState = st
    ∨ (ble_loop env st).finalState
        = { st with connected := true, current_input := "Bluetooth" }
    ∨ (ble_loop env st).finalState
        = { st with connected := false, current_input := "Bluetooth" } := by
  by_cases h1 : st.scan_requested
  case neg => exact Or.inl (by simp [ble_loop, h1])
  by_cases h2 : env.adapterPresent
  case neg => exact Or.inl (by simp [ble_loop, h1, h2])
  by_cases h3 : env.adapterReady
  case neg => exact Or.inl (by simp [ble_loop, h1, h2, h3])
  cases hscan : (scan_loop env.advStream env.closeTime).1 with
  | none => exact Or.inl (by simp [ble_loop, h1, h2, h3, hscan])
  | some d =>
  by_cases h5 : env.connectOk
  case neg => exact Or.inl (by simp [ble_loop, h1, h2, h3, hscan, h5])
  by_cases h6 : service_uuid ∈ env.deviceServices
  case neg => exact Or.inl (by simp [ble_loop, h1, h2, h3, hscan, h5, h6])
  by_cases h7 : cmd_uuid ∈ env.serviceChars
  case neg => exact Or.inl (by simp [ble_loop, h1, h2, h3, hscan, h5, h6, h7])
  by_cases h8 : resp_uuid ∈ env.serviceChars
  case neg => exact Or.inl (by simp [ble_loop, h1, h2, h3, hscan, h5, h6, h7, h8])
  by_cases h9 : env.hsWrite1Ok
  case neg =>
    exact Or.inl (by simp [ble_loop, h1, h2, h3, hscan, h5, h6, h7, h8, h9])
  by_cases h10 : env.hsWrite2Ok
  case neg =>
    exact Or.inl (by simp [ble_loop, h1, h2, h3, hscan, h5, h6, h7, h8, h9, h10])
  rw [ble_loop_success_path env st d h1 h2 h3 hscan h5 h6 h7 h8 h9 h10]
  by_cases h11 : (command_loop env.cmdWriteOk 0 env.cmdQueue).2
  · exact Or.inr (Or.inr (by simp [h11]))
  · exact Or.inr (Or.inl (by simp [h11]))

/-- The state published after the handshake, when the handshake runs to
completion, is the input state with `connected := true` and
`current_input := "Bluetooth"`. -/
theorem ble_loop_afterHandshake_cases (env : BleEnv) (st : Z407State) :
    (ble_loop env st).afterHandshake = none
    ∨ (ble_loop env st).afterHandshake
        = some { st with connected := true, current_input := "Bluetooth" } := by
  by_cases h1 : st.scan_requested
  case neg => exact Or.inl (by simp [ble_loop, h1])
  by_cases h2 : env.adapterPresent
  case neg => exact Or.inl (by simp [ble_loop, h1, h2])
  by_cases h3 : env.adapterReady
  case neg => exact Or.inl (by simp [ble_loop, h1, h2, h3])
  cases hscan : (scan_loop env.advStream env.closeTime).1 with
  | none => exact Or.inl (by simp [ble_loop, h1, h2, h3, hscan])
  | some d =>
  by_cases h5 : env.connectOk
  case neg => exact Or.inl (by simp [ble_loop, h1, h2, h3, hscan, h5])
  by_cases h6 : service_uuid ∈ env.deviceServices
  case neg => exact Or.inl (by simp [ble_loop, h1, h2, h3, hscan, h5, h6])
  by_cases h7 : cmd_uuid ∈ env.serviceChars
  case neg => exact Or.inl (by simp [ble_loop, h1, h2, h3, hscan, h5, h6, h7])
  by_cases h8 : resp_uuid ∈ env.serviceChars
  case neg => exact Or.inl (by simp [ble_loop, h1, h2, h3, hscan, h5, h6, h7, h8])
  by_cases h9 : env.hsWrite1Ok
  case neg =>
    exact Or.inl (by simp [ble_loop, h1, h2, h3, hscan, h5, h6, h7, h8, h9])
  by_cases h10 : env.hsWrite2Ok
  case neg =>
    exact Or.inl (by simp [ble_loop, h1, h2, h3, hscan, h5, h6, h7, h8, h9, h10])
  rw [ble_loop_success_path env st d h1 h2 h3 hscan h5 h6 h7 h8 h9 h10]
  by_cases h11 : (command_loop env.cmdWriteOk 0 env.cmdQueue).2
  · exact Or.inr (by simp [h11])
  · exact Or.inr (by simp [h11])

/-! ## C1 — discovery match rule -/

/-- C1 counterexample: the claim says device matching is decided by the
advertised service UUID. In the code it is decided by the advertised
name: an advertisement whose service set contains the target UUID but
whose name differs is NOT matched, while an advertisement named
"Logitech Z407" advertising no service at all IS matched; moreover the
scan is opened with an empty UUID filter. -/
theorem scan_by_uuid_counterexample :
    (scan_loop [⟨0, some "BLE Speaker", [service_uuid]⟩] 50).1 = none
    ∧ (scan_loop [⟨0, some "Logitech Z407", []⟩] 50).1
        = some ⟨0, some "Logitech Z407", []⟩
    ∧ scan_filter = [] := by
  refine ⟨by decide, by decide, rfl⟩

/-- C1 (amended): discovery opens an UNFILTERED scan
(`adapter.scan(&[])`) and accepts the first advertisement whose
readable device name equals "Logitech Z407"; matching is decided by the
advertised name, never by the advertised service set — replacing every
advertisement's service set changes neither the matched name nor the
exit time. -/
theorem scan_matches_by_name_only (evs : List AdvEvent) (ct : Nat) :
    (∀ e, (scan_loop evs ct).1 = some e → e.name = some target_name)
    ∧ scan_filter = []
    ∧ ∀ g : AdvEvent → List String,
        ((scan_loop (evs.map fun e => { e with services := g e }) ct).1.map AdvEvent.name
           = (scan_loop evs ct).1.map AdvEvent.name)
        ∧ (scan_loop (evs.map fun e => { e with services := g e }) ct).2
           = (scan_loop evs ct).2 :=
  ⟨fun e h => scan_loop_match_name evs ct e h, rfl,
   fun g => scan_loop_ignores_services evs ct g⟩

/-- Witness for `scan_matches_by_name_only`: a concretely matched
advertisement indeed carries the target name. -/
theorem scan_matches_by_name_only_witness :
    (⟨3, some "Logitech Z407", ["1234"]⟩ : AdvEvent).name = some target_name :=
  (scan_matches_by_name_only [⟨3, some "Logitech Z407", ["1234"]⟩] 9).1
    ⟨3, some "Logitech Z407", ["1234"]⟩ (by decide)

/-! ## C2 — scan termination bound -/

/-- C2 counterexample: the claim says every scan terminates within the
10 s timeout measured from scan start. The deadline is only inspected
when the stream yields an advertisement: with a single advertisement
processed 600 s after scan start, the loop exits at 600 000 ms — far
past the 10 000 ms bound (and had the stream yielded nothing, the loop
would have stayed suspended in `next().await` indefinitely). -/
theorem scan_timeout_unbounded_counterexample :
    scan_loop [⟨600000, some target_name, [service_uuid]⟩] 0 = (none, 600000)
    ∧ ¬(600000 ≤ scan_timeout_ms) := by
  refine ⟨by decide, by decide⟩

/-- C2 (amended): the scan checks the 10 s deadline only when the
advertisement stream yields. A match is only ever accepted within the
deadline and the loop then exits at the match's arrival time; otherwise
the loop exits at stream close or at the arrival time of some
advertisement of the stream — which may lie arbitrarily far beyond the
deadline — and between stream events the loop waits without any bound
of its own. -/
theorem scan_exit_only_on_stream_events (evs : List AdvEvent) (ct : Nat) :
    (∀ e, (scan_loop evs ct).1 = some e →
        e.time ≤ scan_timeout_ms ∧ (scan_loop evs ct).2 = e.time)
    ∧ ((scan_loop evs ct).2 = ct ∨ ∃ e, e ∈ evs ∧ (scan_loop evs ct).2 = e.time) :=
  ⟨fun e h => scan_loop_match_time evs ct e h, scan_loop_exit_time evs ct⟩

/-- Witness for `scan_exit_only_on_stream_events`: a concrete match at
5 ms is within the deadline and the loop exits right there. -/
theorem scan_exit_only_on_stream_events_witness :
    5 ≤ scan_timeout_ms ∧ (scan_loop [⟨5, some "Logitech Z407", []⟩] 77).2 = 5 :=
  (scan_exit_only_on_stream_events [⟨5, some "Logitech Z407", []⟩] 77).1
    ⟨5, some "Logitech Z407", []⟩ (by decide)

/-! ## C5 — command opcode table -/

/-- C5: each command-issuing method enqueues exactly the 2-byte frame
of the canonical opcode table, and — the scenario of the claim — one
`volume_up` invocation while connected leads the command loop (all
writes succeeding) to write `[0x80, 0x02]` to the command
characteristic exactly once. -/
theorem command_frames_match_table (st : Z407State) (q : List Frame)
    (htx : st.cmd_tx = true) (_hconn : st.connected = true) :
    (volume_up st q).2 = q ++ [[0x80, 0x02]]
    ∧ (volume_down st q).2 = q ++ [[0x80, 0x03]]
    ∧ (bass_up st q).2 = q ++ [[0x80, 0x00]]
    ∧ (bass_down st q).2 = q ++ [[0x80, 0x01]]
    ∧ (play_pause st q).2 = q ++ [[0x80, 0x04]]
    ∧ (next_track st q).2 = q ++ [[0x80, 0x05]]
    ∧ (prev_track st q).2 = q ++ [[0x80, 0x06]]
    ∧ (switch_bluetooth st q).2 = q ++ [[0x81, 0x01]]
    ∧ (switch_aux st q).2 = q ++ [[0x81, 0x02]]
    ∧ (switch_usb st q).2 = q ++ [[0x81, 0x03]]
    ∧ (pairing st q).2 = q ++ [[0x82, 0x00]]
    ∧ (factory_reset st q).2 = q ++ [[0x83, 0x00]]
    ∧ ∀ writeOk : Nat → Bool, (∀ i, writeOk i = true) →
        (writesOf (command_loop writeOk 0 (volume_up st q).2).1).count
            ([0x80, 0x02] : Frame)
          = q.count ([0x80, 0x02] : Frame) + 1 := by
  refine ⟨by simp [volume_up, send_cmd, htx], by simp [volume_down, send_cmd, htx],
    by simp [bass_up, send_cmd, htx], by simp [bass_down, send_cmd, htx],
    by simp [play_pause, send_cmd, htx], by simp [next_track, send_cmd, htx],
    by simp [prev_track, send_cmd, htx], by simp [switch_bluetooth, send_cmd, htx],
    by simp [switch_aux, send_cmd, htx], by simp [switch_usb, send_cmd, htx],
    by simp [pairing, send_cmd, htx], by simp [factory_reset, send_cmd, htx], ?_⟩
  intro writeOk hok
  rw [command_loop_writes_all writeOk hok 0 (volume_up st q).2]
  simp [volume_up, send_cmd, htx]

/-- Witness for `command_frames_match_table`: starting from an empty
queue while connected, one `volume_up` yields one write of
`[0x80, 0x02]`. -/
theorem command_frames_match_table_witness :
    (volume_up { new_state with connected := true } []).2 = [[0x80, 0x02]]
    ∧ (writesOf (command_loop (fun _ => true) 0
          (volume_up { new_state with connected := true } []).2).1).count
        ([0x80, 0x02] : Frame) = 1 := by
  have h := command_frames_match_table { new_state with connected := true } [] rfl rfl
  refine ⟨h.1, ?_⟩
  have h13 := h.2.2.2.2.2.2.2.2.2.2.2.2 (fun _ => true) (fun _ => rfl)
  simpa using h13

/-! ## C6 — commands while disconnected -/

/-- C6 counterexample: the claim says a command issued while
`connected == false` is discarded, not queued, and no write ever occurs
for it. `send_cmd` never reads `connected`: in the startup state (which
is disconnected) the frame is appended to the channel queue, and once
the command loop drains the channel — as happens to every frame
enqueued before the handshake completes — that very frame IS written to
the command characteristic. -/
theorem send_cmd_queues_while_disconnected :
    new_state.connected = false
    ∧ (send_cmd new_state [] [0x80, 0x02]).2 = [[0x80, 0x02]]
    ∧ ([[0x80, 0x02]] : List Frame) ≠ []
    ∧ writesOf (command_loop (fun _ => true) 0
        (send_cmd new_state [] [0x80, 0x02]).2).1 = [[0x80, 0x02]] := by
  refine ⟨rfl, by decide, by decide, by decide⟩

/-- C6 (amended): a command invocation issued while
`connected == false` leaves the shared state entirely unchanged (so in
particular everything but the connect-request trigger is unaffected),
but the frame is NOT discarded: whenever the sender handle is present
it is appended to the channel queue, where it stays until the command
loop drains it. -/
theorem send_cmd_ignores_connected (st : Z407State) (q : List Frame) (cmd : Frame)
    (_h : st.connected = false) :
    (send_cmd st q cmd).1 = st
    ∧ (send_cmd st q cmd).2 = (if st.cmd_tx then q ++ [cmd] else q) :=
  ⟨rfl, rfl⟩

/-- Witness for `send_cmd_ignores_connected` at the startup state. -/
theorem send_cmd_ignores_connected_witness :
    (send_cmd new_state [] [0x80, 0x03]).1 = new_state
    ∧ (send_cmd new_state [] [0x80, 0x03]).2
        = (if new_state.cmd_tx then [] ++ [[0x80, 0x03]] else []) :=
  send_cmd_ignores_connected new_state [] [0x80, 0x03] rfl

/-! ## C7 — response decode table -/

/-- C7: response decoding is a total, pure mapping — `c101` sets
`current_input` to Bluetooth, `c102` to AUX, `c103` to USB, anything
else changes nothing; it is idempotent per frame, and each frame's
effect is independent of the prior state (it either never changes any
state or overwrites `current_input` with one fixed value), so
duplicated or reordered frames cause at most redundant identical
writes; and the notification payloads `c1 01`/`c1 02`/`c1 03`
hex-encode to exactly the table's keys. -/
theorem decode_response_total_pure (s : Z407State) (r : String) :
    (decode_response s "c101").current_input = "Bluetooth"
    ∧ (decode_response s "c102").current_input = "AUX"
    ∧ (decode_response s "c103").current_input = "USB"
    ∧ (r ≠ "c101" → r ≠ "c102" → r ≠ "c103" → decode_response s r = s)
    ∧ decode_response (decode_response s r) r = decode_response s r
    ∧ (decode_response s r = s
        ∨ ∃ v, ∀ t : Z407State, decode_response t r = { t with current_input := v })
    ∧ poll_responses s [r, r] = poll_responses s [r]
    ∧ hex_encode [0xc1, 0x01] = "c101"
    ∧ hex_encode [0xc1, 0x02] = "c102"
    ∧ hex_encode [0xc1, 0x03] = "c103" := by
  have hother : r ≠ "c101" → r ≠ "c102" → r ≠ "c103" → decode_response s r = s := by
    intro h1 h2 h3
    simp [decode_response, h1, h2, h3]
  have hconst : decode_response s r = s
      ∨ ∃ v, ∀ t : Z407State, decode_response t r = { t with current_input := v } := by
    by_cases h1 : r = "c101"
    · exact Or.inr ⟨"Bluetooth", fun t => by simp [decode_response, h1]⟩
    by_cases h2 : r = "c102"
    · exact Or.inr ⟨"AUX", fun t => by simp [decode_response, h1, h2]⟩
    by_cases h3 : r = "c103"
    · exact Or.inr ⟨"USB", fun t => by simp [decode_response, h1, h2, h3]⟩
    exact Or.inl (hother h1 h2 h3)
  have hidem : decode_response (decode_response s r) r = decode_response s r := by
    rcases hconst with h | ⟨v, hv⟩
    · rw [h, h]
    · rw [hv s, hv { s with current_input := v }]
  have hdup : poll_responses s [r, r] = poll_responses s [r] := by
    simp only [poll_responses, List.foldl_cons, List.foldl_nil]
    rcases hconst with h | ⟨v, hv⟩
    · rw [h, h]
    · rw [hv s, hv { s with current_input := v }]
  exact ⟨by simp [decode_response], by simp [decode_response], by simp [decode_response],
    hother, hidem, hconst, hdup, by decide, by decide, by decide⟩

/-- Witness for `decode_response_total_pure`: an unmodeled code such as
`"beef"` leaves the state untouched. -/
theorem decode_response_total_pure_witness :
    decode_response new_state "beef" = new_state :=
  (decode_response_total_pure new_state "beef").2.2.2.1
    (by decide) (by decide) (by decide)

/-! ## C3 — not-found outcome -/

/-- C3 counterexample: the claim says that when no matching device is
found the connect-request flag is reset to `false`. With an adapter
present and a single non-matching advertisement, `ble_loop` ends in
`deviceNotFound` and `connected` stays `false` — but `scan_requested`
is still `true`: no code path ever clears it. -/
theorem not_found_keeps_scan_requested :
    (ble_loop
      { adapterPresent := true, adapterReady := true,
        advStream := [⟨1, some "JBL Flip 5", [service_uuid]⟩], closeTime := 9000,
        connectOk := true, deviceServices := [service_uuid],
        serviceChars := [cmd_uuid, resp_uuid], notifySetupOk := true,
        respFrames := [], hsWrite1Ok := true, hsWrite2Ok := true,
        cmdWriteOk := (fun _ => true), cmdQueue := [] } new_state).outcome
      = BleOutcome.deviceNotFound
    ∧ (ble_loop
      { adapterPresent := true, adapterReady := true,
        advStream := [⟨1, some "JBL Flip 5", [service_uuid]⟩], closeTime := 9000,
        connectOk := true, deviceServices := [service_uuid],
        serviceChars := [cmd_uuid, resp_uuid], notifySetupOk := true,
        respFrames := [], hsWrite1Ok := true, hsWrite2Ok := true,
        cmdWriteOk := (fun _ => true), cmdQueue := [] } new_state).finalState.scan_requested
      = true
    ∧ (ble_loop
      { adapterPresent := true, adapterReady := true,
        advStream := [⟨1, some "JBL Flip 5", [service_uuid]⟩], closeTime := 9000,
        connectOk := true, deviceServices := [service_uuid],
        serviceChars := [cmd_uuid, resp_uuid], notifySetupOk := true,
        respFrames := [], hsWrite1Ok := true, hsWrite2Ok := true,
        cmdWriteOk := (fun _ => true), cmdQueue := [] } new_state).finalState.connected
      = false := by
  refine ⟨by decide, by decide, by decide⟩

/-- C3 (amended): when the scan yields no match, `ble_loop` returns the
not-found outcome and leaves the shared state entirely unchanged —
`connected` remains `false` when it was `false`, and the pending
connect-request flag is NOT reset: it keeps its prior value. -/
theorem ble_not_found_leaves_state (env : BleEnv) (st : Z407State)
    (h1 : st.scan_requested = true) (h2 : env.adapterPresent = true)
    (h3 : env.adapterReady = true)
    (h4 : (scan_loop env.advStream env.closeTime).1 = none) :
    (ble_loop env st).outcome = BleOutcome.deviceNotFound
    ∧ (ble_loop env st).finalState = st := by
  constructor <;> simp [ble_loop, h1, h2, h3, h4]

/-- Witness for `ble_not_found_leaves_state`: an empty advertisement
stream closing at 0 ms. -/
theorem ble_not_found_leaves_state_witness :
    (ble_loop
      { adapterPresent := true, adapterReady := true, advStream := [],
        closeTime := 0, connectOk := false, deviceServices := [],
        serviceChars := [], notifySetupOk := false, respFrames := [],
        hsWrite1Ok := false, hsWrite2Ok := false,
        cmdWriteOk := (fun _ => false), cmdQueue := [] } new_state).outcome
      = BleOutcome.deviceNotFound
    ∧ (ble_loop
      { adapterPresent := true, adapterReady := true, advStream := [],
        closeTime := 0, connectOk := false, deviceServices := [],
        serviceChars := [], notifySetupOk := false, respFrames := [],
        hsWrite1Ok := false, hsWrite2Ok := false,
        cmdWriteOk := (fun _ => false), cmdQueue := [] } new_state).finalState
      = new_state :=
  ble_not_found_leaves_state
    { adapterPresent := true, adapterReady := true, advStream := [],
      closeTime := 0, connectOk := false, deviceServices := [],
      serviceChars := [], notifySetupOk := false, respFrames := [],
      hsWrite1Ok := false, hsWrite2Ok := false,
      cmdWriteOk := (fun _ => false), cmdQueue := [] } new_state rfl rfl rfl rfl

/-! ## C4 — handshake order and effect -/

/-- C4: on every run that reaches the handshake and completes it, the
trace on the command characteristic starts with
`INITIATE = [0x84, 0x05]`, then a 200 ms sleep, then
`ACKNOWLEDGE = [0x84, 0x00]`, then another 200 ms sleep — so INITIATE
strictly precedes ACKNOWLEDGE with the full settle interval between the
writes and after the second — and the state published at handshake
completion has `connected = true` and `current_input = "Bluetooth"`. -/
theorem handshake_order_and_effect (env : BleEnv) (st : Z407State) (d : AdvEvent)
    (h1 : st.scan_requested = true) (h2 : env.adapterPresent = true)
    (h3 : env.adapterReady = true)
    (h4 : (scan_loop env.advStream env.closeTime).1 = some d)
    (h5 : env.connectOk = true)
    (h6 : service_uuid ∈ env.deviceServices)
    (h7 : cmd_uuid ∈ env.serviceChars)
    (h8 : resp_uuid ∈ env.serviceChars)
    (h9 : env.hsWrite1Ok = true) (h10 : env.hsWrite2Ok = true) :
    (∃ tail, (ble_loop env st).trace
        = BleAction.write [0x84, 0x05] :: BleAction.sleep 200
          :: BleAction.write [0x84, 0x00] :: BleAction.sleep 200 :: tail)
    ∧ (ble_loop env st).afterHandshake
        = some { st with connected := true, current_input := "Bluetooth" } := by
  rw [ble_loop_success_path env st d h1 h2 h3 h4 h5 h6 h7 h8 h9 h10]
  by_cases h11 : (command_loop env.cmdWriteOk 0 env.cmdQueue).2 <;>
    exact ⟨⟨(command_loop env.cmdWriteOk 0 env.cmdQueue).1, by simp [h11]⟩,
      by simp [h11]⟩

/-- Witness for `handshake_order_and_effect` on `env_found`. -/
theorem handshake_order_and_effect_witness :
    (∃ tail, (ble_loop env_found new_state).trace
        = BleAction.write [0x84, 0x05] :: BleAction.sleep 200
          :: BleAction.write [0x84, 0x00] :: BleAction.sleep 200 :: tail)
    ∧ (ble_loop env_found new_state).afterHandshake
        = some { new_state with connected := true, current_input := "Bluetooth" } :=
  handshake_order_and_effect env_found new_state ⟨2, some "Logitech Z407", []⟩
    rfl rfl rfl (by decide) rfl (by decide) (by decide) (by decide) rfl rfl

/-! ## C8 — write failure in the Active state -/

/-- C8: whenever the session reached the command loop (so the published
state had `connected = true`) and some command write fails, the loop
terminates via `break`, the outcome is the disconnection, the final
state has `connected = false` (the single `true → false` transition of
the post-loop block, lines 195–198), and the channel stops draining:
strictly fewer frames were written than were queued. -/
theorem write_failure_disconnects (env : BleEnv) (st : Z407State) (d : AdvEvent)
    (h1 : st.scan_requested = true) (h2 : env.adapterPresent = true)
    (h3 : env.adapterReady = true)
    (h4 : (scan_loop env.advStream env.closeTime).1 = some d)
    (h5 : env.connectOk = true)
    (h6 : service_uuid ∈ env.deviceServices)
    (h7 : cmd_uuid ∈ env.serviceChars)
    (h8 : resp_uuid ∈ env.serviceChars)
    (h9 : env.hsWrite1Ok = true) (h10 : env.hsWrite2Ok = true)
    (h11 : (command_loop env.cmdWriteOk 0 env.cmdQueue).2 = true) :
    (ble_loop env st).outcome = BleOutcome.disconnected
    ∧ (ble_loop env st).afterHandshake
        = some { st with connected := true, current_input := "Bluetooth" }
    ∧ (ble_loop env st).finalState.connected = false
    ∧ (writesOf (command_loop env.cmdWriteOk 0 env.cmdQueue).1).length
        < env.cmdQueue.length := by
  rw [ble_loop_success_path env st d h1 h2 h3 h4 h5 h6 h7 h8 h9 h10]
  exact ⟨by simp [h11], by simp [h11], by simp [h11],
    command_loop_broke_writes_lt env.cmdWriteOk 0 env.cmdQueue h11⟩

/-- Witness for `write_failure_disconnects`: one queued frame whose
write fails. -/
theorem write_failure_disconnects_witness :
    (ble_loop { env_found with cmdWriteOk := (fun _ => false), cmdQueue := [[0x80, 0x02]] } new_state).outcome = BleOutcome.disconnected
    ∧ (ble_loop { env_found with cmdWriteOk := (fun _ => false), cmdQueue := [[0x80, 0x02]] } new_state).finalState.connected = false := by
  have h := write_failure_disconnects
    { env_found with cmdWriteOk := (fun _ => false), cmdQueue := [[0x80, 0x02]] }
    new_state ⟨2, some "Logitech Z407", []⟩
    rfl rfl rfl (by decide) rfl (by decide) (by decide) (by decide) rfl rfl rfl
  exact ⟨h.1, h.2.2.1⟩

/-! ## C9 — idle gate and the first session -/

/-- C9 counterexample: the claim says the worker scans only after the
UI collaborator explicitly sets the connect-request flag, including for
the very first session after startup. But `Z407PuckApp::new` builds the
startup state with `scan_requested: true` before any UI interaction, so
the worker's single gate check passes and the first scan runs
unprompted: on the startup state the run proceeds into Discovery (here
ending in `deviceNotFound` on an empty stream). -/
theorem first_session_autostarts :
    new_state.scan_requested = true
    ∧ (ble_loop
        { adapterPresent := true, adapterReady := true, advStream := [],
          closeTime := 5, connectOk := false, deviceServices := [],
          serviceChars := [], notifySetupOk := false, respFrames := [],
          hsWrite1Ok := false, hsWrite2Ok := false,
          cmdWriteOk := (fun _ => false), cmdQueue := [] } new_state).outcome
      = BleOutcome.deviceNotFound := by
  refine ⟨rfl, by decide⟩

/-- C9 (amended): the worker checks the connect-request flag exactly
once, at entry: if it is `false` the run ends immediately with no scan,
no writes and no state change. However the startup state already has
`scan_requested = true`, so the first session begins automatically,
without an explicit request from the UI collaborator. -/
theorem scan_gate_checked_once (env : BleEnv) (st : Z407State)
    (h : st.scan_requested = false) :
    ((ble_loop env st).outcome = BleOutcome.notRequested
     ∧ (ble_loop env st).finalState = st
     ∧ (ble_loop env st).trace = [])
    ∧ new_state.scan_requested = true := by
  refine ⟨⟨by simp [ble_loop, h], by simp [ble_loop, h], by simp [ble_loop, h]⟩, rfl⟩

/-- Witness for `scan_gate_checked_once`: with the flag cleared, the
worker does nothing. -/
theorem scan_gate_checked_once_witness :
    ((ble_loop env_found { new_state with scan_requested := false }).outcome
        = BleOutcome.notRequested
     ∧ (ble_loop env_found { new_state with scan_requested := false }).finalState
        = { new_state with scan_requested := false }
     ∧ (ble_loop env_found { new_state with scan_requested := false }).trace = [])
    ∧ new_state.scan_requested = true :=
  scan_gate_checked_once env_found { new_state with scan_requested := false } rfl

/-! ## C10 — frame condition of the worker -/

/-- C10: across every possible run, the BLE worker only ever writes the
`connected` and `current_input` fields of the shared state: both the
final state and the state published after the handshake agree with the
input state on `volume`, `bass`, the channel handles `cmd_tx` /
`resp_rx`, and `scan_requested` — slider values are never reconciled
from device feedback by the worker. -/
theorem ble_loop_only_writes_connected_and_input (env : BleEnv) (st : Z407State) :
    ((ble_loop env st).finalState.volume = st.volume
     ∧ (ble_loop env st).finalState.bass = st.bass
     ∧ (ble_loop env st).finalState.cmd_tx = st.cmd_tx
     ∧ (ble_loop env st).finalState.resp_rx = st.resp_rx
     ∧ (ble_loop env st).finalState.scan_requested = st.scan_requested)
    ∧ ∀ s1, (ble_loop env st).afterHandshake = some s1 →
        s1.volume = st.volume ∧ s1.bass = st.bass ∧ s1.cmd_tx = st.cmd_tx
        ∧ s1.resp_rx = st.resp_rx ∧ s1.scan_requested = st.scan_requested := by
  constructor
  · rcases ble_loop_finalState_cases env st with h | h | h <;> rw [h] <;>
      exact ⟨rfl, rfl, rfl, rfl, rfl⟩
  · intro s1 hs1
    rcases ble_loop_afterHandshake_cases env st with h | h
    · rw [h] at hs1
      cases hs1
    · rw [h] at hs1
      injection hs1 with h2
      rw [← h2]
      exact ⟨rfl, rfl, rfl, rfl, rfl⟩

/-- Witness for `ble_loop_only_writes_connected_and_input`: the state
published after a successful handshake keeps all worker-untouched
fields of the startup state. -/
theorem ble_loop_only_writes_connected_and_input_witness :
    ({ new_state with connected := true, current_input := "Bluetooth" } : Z407State).volume
        = new_state.volume
    ∧ ({ new_state with connected := true, current_input := "Bluetooth" } : Z407State).bass
        = new_state.bass
    ∧ ({ new_state with connected := true, current_input := "Bluetooth" } : Z407State).cmd_tx
        = new_state.cmd_tx
    ∧ ({ new_state with connected := true, current_input := "Bluetooth" } : Z407State).resp_rx
        = new_state.resp_rx
    ∧ ({ new_state with connected := true, current_input := "Bluetooth" } : Z407State).scan_requested
        = new_state.scan_requested :=
  (ble_loop_only_writes_connected_and_input env_found new_state).2
    { new_state with connected := true, current_input := "Bluetooth" } (by decide)

end Z407
